/-
Verification of the lead classification, scoring, tagging, geofencing and
duplicate-detection engine of the majestic-contracting-hub repository.

The TypeScript source is shallowly embedded: module-level constant tables
become Lean lists, string-processing helpers become executable functions on
`String`, JavaScript numbers that carry business values become `ℚ` (the
arithmetic the algorithms perform is exact on the values involved), and the
final rounded score becomes `ℤ`.
-/

import Mathlib

set_option maxHeartbeats 1000000
set_option maxRecDepth 8000

/-! ## String utilities (models of the JavaScript string operations used) -/

/-- Model of `s.toLowerCase()` (all data in the tables is ASCII). -/
def lowerStr (s : String) : String := ⟨s.data.map Char.toLower⟩

/-- Model of `s.toUpperCase()`. -/
def upperStr (s : String) : String := ⟨s.data.map Char.toUpper⟩

/-- Model of `s.replace(/\D/g, '')`: keep only digit characters. -/
def digitsOf (s : String) : String := ⟨s.data.filter Char.isDigit⟩

/-- Model of `s.trim()`: drop whitespace at both ends. -/
def trimStr (s : String) : String :=
  ⟨((s.data.dropWhile Char.isWhitespace).reverse.dropWhile Char.isWhitespace).reverse⟩

/-- Helper for collapsing whitespace runs: the boolean records whether the
previous character was whitespace. -/
def collapseAux : Bool → List Char → List Char
  | _, [] => []
  | inWS, c :: t =>
    if c.isWhitespace then
      if inWS then collapseAux true t else ' ' :: collapseAux true t
    else c :: collapseAux false t

/-- Model of `s.replace(/\s+/g, ' ')`: every run of whitespace becomes one space. -/
def collapseWS (s : String) : String := ⟨collapseAux false s.data⟩

/-- Does the first list start with the second one? -/
def leadsWith : List Char → List Char → Bool
  | _, [] => true
  | [], _ :: _ => false
  | h :: hs, p :: ps => h == p && leadsWith hs ps

/-- Does the first list contain the second one as a contiguous segment? -/
def seekSub : List Char → List Char → Bool
  | [], pat => pat.isEmpty
  | h :: t, pat => leadsWith (h :: t) pat || seekSub t pat

/-- Model of `hay.includes(sub)` on strings. -/
def insideStr (hay sub : String) : Bool := seekSub hay.data sub.data

/-- Fuel-driven SQL `ILIKE` matcher: `%` matches any sequence, `_` any single
character, other characters match case-insensitively.  The fuel only needs to
exceed the sum of the lengths, which every caller supplies. -/
def ilikeAux : Nat → List Char → List Char → Bool
  | 0, _, _ => false
  | _ + 1, [], v => v.isEmpty
  | f + 1, '%' :: ps, v =>
    ilikeAux f ps v ||
      (match v with
       | [] => false
       | _ :: vt => ilikeAux f ('%' :: ps) vt)
  | _ + 1, '_' :: _, [] => false
  | f + 1, '_' :: ps, _ :: vt => ilikeAux f ps vt
  | _ + 1, _ :: _, [] => false
  | f + 1, p :: ps, c :: vt => (p.toLower == c.toLower) && ilikeAux f ps vt

/-- Model of PostgREST `.ilike(column, pattern)` on a non-null column value. -/
def ilikeStr (value pattern : String) : Bool :=
  ilikeAux (pattern.length + value.length + 1) pattern.data value.data

/-! ## Geofence validator (`src/unnamed/part_008`) -/

/-- Source constant `VA_ZIP_PREFIXES`: VA ZIP codes start with 20, 22, or 23. -/
def VA_ZIP_PREFIXES : List String := ["20", "22", "23"]

/-- Source constant `VA_COUNTIES`: counties served, grouped by region, in the
object's insertion order (used by `Object.entries` iteration). -/
def VA_COUNTIES : List (String × List String) :=
  [("northernVA",
    ["Fairfax", "Fairfax City", "Arlington", "Alexandria", "Loudoun",
     "Prince William", "Manassas", "Manassas Park", "Falls Church",
     "Fauquier", "Stafford", "Spotsylvania", "Fredericksburg"]),
   ("richmondMetro",
    ["Richmond", "Henrico", "Chesterfield", "Hanover", "Goochland",
     "Powhatan", "Colonial Heights", "Petersburg"]),
   ("hamptonRoads",
    ["Virginia Beach", "Norfolk", "Newport News", "Hampton", "Chesapeake",
     "Portsmouth", "Suffolk", "Williamsburg", "James City", "York"]),
   ("centralVA",
    ["Albemarle", "Charlottesville", "Lynchburg", "Bedford", "Roanoke",
     "Salem", "Montgomery", "Blacksburg"])]

/-- Source constant `ZIP_TO_COUNTY`: the static ZIP→county table, in source
order. -/
def ZIP_TO_COUNTY : List (String × String) :=
  [("22030", "Fairfax"), ("22031", "Fairfax"), ("22032", "Fairfax"),
   ("22033", "Fairfax"), ("22034", "Fairfax"), ("22035", "Fairfax"),
   ("22039", "Fairfax"), ("22041", "Fairfax"), ("22042", "Fairfax"),
   ("22043", "Fairfax"), ("22044", "Fairfax"), ("22046", "Falls Church"),
   ("22060", "Fairfax"), ("22079", "Fairfax"), ("22101", "Fairfax"),
   ("22102", "Fairfax"), ("22124", "Fairfax"), ("22150", "Fairfax"),
   ("22151", "Fairfax"), ("22152", "Fairfax"), ("22153", "Fairfax"),
   ("22180", "Fairfax"), ("22181", "Fairfax"), ("22182", "Fairfax"),
   ("22201", "Arlington"), ("22202", "Arlington"), ("22203", "Arlington"),
   ("22204", "Arlington"), ("22205", "Arlington"), ("22206", "Arlington"),
   ("22207", "Arlington"), ("22209", "Arlington"), ("22211", "Arlington"),
   ("22213", "Arlington"),
   ("22301", "Alexandria"), ("22302", "Alexandria"), ("22303", "Alexandria"),
   ("22304", "Alexandria"), ("22305", "Alexandria"), ("22306", "Fairfax"),
   ("22307", "Fairfax"), ("22308", "Fairfax"), ("22309", "Fairfax"),
   ("22310", "Fairfax"), ("22311", "Alexandria"), ("22312", "Fairfax"),
   ("22314", "Alexandria"), ("22315", "Fairfax"),
   ("20105", "Loudoun"), ("20117", "Loudoun"), ("20120", "Loudoun"),
   ("20121", "Loudoun"), ("20129", "Loudoun"), ("20130", "Loudoun"),
   ("20132", "Loudoun"), ("20135", "Loudoun"), ("20141", "Loudoun"),
   ("20147", "Loudoun"), ("20148", "Loudoun"), ("20152", "Loudoun"),
   ("20158", "Loudoun"), ("20164", "Loudoun"), ("20165", "Loudoun"),
   ("20166", "Loudoun"), ("20175", "Loudoun"), ("20176", "Loudoun"),
   ("22025", "Prince William"), ("22026", "Prince William"),
   ("22110", "Prince William"), ("22111", "Prince William"),
   ("22112", "Prince William"), ("22172", "Prince William"),
   ("22191", "Prince William"), ("22192", "Prince William"),
   ("22193", "Prince William"), ("22194", "Prince William"),
   ("20109", "Prince William"), ("20110", "Manassas"), ("20111", "Manassas"),
   ("20112", "Prince William"), ("20155", "Prince William"),
   ("20169", "Prince William"), ("20181", "Prince William"),
   ("23173", "Richmond"), ("23219", "Richmond"), ("23220", "Richmond"),
   ("23221", "Richmond"), ("23222", "Richmond"), ("23223", "Richmond"),
   ("23224", "Richmond"), ("23225", "Richmond"), ("23226", "Richmond"),
   ("23227", "Richmond"), ("23228", "Henrico"), ("23229", "Henrico"),
   ("23230", "Richmond"), ("23231", "Henrico"), ("23233", "Henrico"),
   ("23234", "Chesterfield"), ("23235", "Chesterfield"),
   ("23236", "Chesterfield"), ("23237", "Chesterfield"),
   ("23238", "Henrico"), ("23294", "Henrico")]

/-- Result record of `validateLeadLocation`. -/
structure ValidationResult where
  isValid : Bool
  isVirginia : Bool
  county : Option String
  region : Option String
  message : String
deriving DecidableEq, Repr

/-- The cleaning step `zipCode.replace(/\D/g, '').substring(0, 5)` that every
geofence entry point performs first. -/
def cleanZipOf (zipCode : String) : String := ⟨(digitsOf zipCode).data.take 5⟩

/-- Source `isVirginiaZipCode`: clean the ZIP, require 5 digits, test the
2-digit prefix against `VA_ZIP_PREFIXES`. -/
def isVirginiaZipCode (zipCode : String) : Bool :=
  let cleanZip := cleanZipOf zipCode
  if cleanZip.length != 5 then false
  else VA_ZIP_PREFIXES.contains ⟨cleanZip.data.take 2⟩

/-- Source `getCountyFromZip`: clean the ZIP and look it up in `ZIP_TO_COUNTY`. -/
def getCountyFromZip (zipCode : String) : Option String :=
  let cleanZip := cleanZipOf zipCode
  (ZIP_TO_COUNTY.find? (fun p => p.1 == cleanZip)).map (·.2)

/-- Source `getRegionFromCounty`: first region whose county list contains the
county, compared case-insensitively. -/
def getRegionFromCounty (county : String) : Option String :=
  (VA_COUNTIES.find? (fun p => p.2.any (fun c => lowerStr c == lowerStr county))).map (·.1)

/-- The JavaScript truthiness test `state && ...` combined with the two
inequality tests on the state argument. -/
def stateIsForeign : Option String → Bool
  | none => false
  | some st => !(st == "") && !(upperStr st == "VA") && !(lowerStr st == "virginia")

/-- Source `validateLeadLocation`: clean the ZIP, short-circuit on a foreign
state, reject malformed ZIPs, test the prefix, then resolve county and region. -/
def validateLeadLocation (zipCode : String) (state : Option String) : ValidationResult :=
  let cleanZip := cleanZipOf zipCode
  if stateIsForeign state then
    { isValid := false, isVirginia := false, county := none, region := none,
      message := "Lead is outside Virginia service area (" ++ state.getD "" ++ ")" }
  else if cleanZip.length != 5 then
    { isValid := false, isVirginia := false, county := none, region := none,
      message := "Invalid ZIP code format" }
  else if !(isVirginiaZipCode cleanZip) then
    { isValid := false, isVirginia := false, county := none, region := none,
      message := "ZIP code is outside Virginia" }
  else
    let county := getCountyFromZip cleanZip
    let region := match county with
      | some c => getRegionFromCounty c
      | none => none
    { isValid := true, isVirginia := true, county := county, region := region,
      message := match county with
        | some c => "Valid Virginia location: " ++ c
        | none => "Valid Virginia ZIP code" }

/-- Source `shouldAutoArchive`: archive exactly when the location validation
does not place the lead in Virginia. -/
def shouldAutoArchive (zipCode : String) (state : Option String) : Bool :=
  !(validateLeadLocation zipCode state).isVirginia

/-! ## Service categorization (`src/lib/leads/categorization.ts`) -/

/-- The `ServiceTier` enum: EPIC=1, MODERNIZE=2, EXTERIOR=3, SERVICE=4. -/
inductive ServiceTier where
  | EPIC
  | MODERNIZE
  | EXTERIOR
  | SERVICE
deriving DecidableEq, Repr

/-- Numeric value of a tier, as in the TypeScript enum. -/
def ServiceTier.num : ServiceTier → Nat
  | .EPIC => 1
  | .MODERNIZE => 2
  | .EXTERIOR => 3
  | .SERVICE => 4

/-- Per-tier metadata record of `TIER_CONFIG`. -/
structure TierProfile where
  name : String
  description : String
  color : String
  minValue : ℚ
  maxValue : ℚ
  baseScore : ℚ
deriving DecidableEq, Repr

/-- Source constant `TIER_CONFIG`. -/
def TIER_CONFIG : ServiceTier → TierProfile
  | .EPIC =>
    { name := "Epic", description := "Whale leads - High value, long-term projects",
      color := "#F4B400", minValue := 100000, maxValue := 500000, baseScore := 80 }
  | .MODERNIZE =>
    { name := "Modernize", description := "Core revenue - Bread and butter projects",
      color := "#006070", minValue := 30000, maxValue := 150000, baseScore := 60 }
  | .EXTERIOR =>
    { name := "Exterior", description := "Specialty - Entry point projects",
      color := "#7C3AED", minValue := 10000, maxValue := 50000, baseScore := 40 }
  | .SERVICE =>
    { name := "Service", description := "High volume - Quick turnaround",
      color := "#10B981", minValue := 2000, maxValue := 30000, baseScore := 20 }

/-- Source constant `SERVICE_TO_TIER`, in the object's insertion order (the
order `Object.keys` iterates). -/
def SERVICE_TO_TIER : List (String × ServiceTier) :=
  [("New Construction", .EPIC), ("Full Renovation", .EPIC), ("Home Addition", .EPIC),
   ("Kitchen Remodel", .MODERNIZE), ("Bathroom Remodel", .MODERNIZE),
   ("Basement Remodel", .MODERNIZE), ("Condo Renovation", .MODERNIZE),
   ("Roofing", .EXTERIOR), ("Deck", .EXTERIOR), ("Concrete", .EXTERIOR),
   ("Siding", .EXTERIOR), ("Fence", .EXTERIOR), ("She-Shed", .EXTERIOR),
   ("Painting", .SERVICE), ("Drywall", .SERVICE), ("Flooring", .SERVICE),
   ("Windows/Doors", .SERVICE)]

/-- Source `getServiceTier`: `SERVICE_TO_TIER[serviceType] ?? ServiceTier.SERVICE`. -/
def getServiceTier (serviceType : String) : ServiceTier :=
  ((SERVICE_TO_TIER.find? (fun p => p.1 == serviceType)).map (·.2)).getD .SERVICE

/-- Source constant `keywordMap` local to `findClosestService`, in insertion
order. -/
def keywordMap : List (String × String) :=
  [("kitchen", "Kitchen Remodel"), ("bath", "Bathroom Remodel"),
   ("bathroom", "Bathroom Remodel"), ("basement", "Basement Remodel"),
   ("condo", "Condo Renovation"), ("roof", "Roofing"), ("deck", "Deck"),
   ("concrete", "Concrete"), ("siding", "Siding"), ("fence", "Fence"),
   ("shed", "She-Shed"), ("paint", "Painting"), ("drywall", "Drywall"),
   ("floor", "Flooring"), ("window", "Windows/Doors"), ("door", "Windows/Doors"),
   ("addition", "Home Addition"), ("renovation", "Full Renovation"),
   ("remodel", "Full Renovation"), ("new home", "New Construction"),
   ("build", "New Construction")]

/-- Source `findClosestService`: exact case-insensitive match, then substring
match in either direction (first table entry wins), then keyword lookup. -/
def findClosestService (input : String) : Option String :=
  let normalized := trimStr (lowerStr input)
  match SERVICE_TO_TIER.find? (fun p => lowerStr p.1 == normalized) with
  | some p => some p.1
  | none =>
    match SERVICE_TO_TIER.find?
        (fun p => insideStr (lowerStr p.1) normalized || insideStr normalized (lowerStr p.1)) with
    | some p => some p.1
    | none =>
      match keywordMap.find? (fun p => insideStr normalized p.1) with
      | some p => some p.2
      | none => none

/-! ## Tagging engine (`src/lib/leads/scoring.ts`, tagging section) -/

/-- The five strategic lead tags. -/
inductive LeadTag where
  | Whale
  | QuickTurn
  | Luxury
  | Commercial
  | MultiUnit
deriving DecidableEq, Repr

/-- Source constant `LUXURY_AREAS`. -/
def LUXURY_AREAS : List String :=
  ["McLean", "Great Falls", "Vienna", "Oakton", "Clifton", "Potomac Falls",
   "Aldie", "Leesburg", "Purcellville", "Old Town Alexandria", "Belle Haven",
   "Rosemont", "Charlottesville", "Virginia Beach", "Williamsburg"]

/-- Source constant `LUXURY_COUNTIES`. -/
def LUXURY_COUNTIES : List String :=
  ["Fairfax", "Loudoun", "Arlington", "Alexandria", "Falls Church"]

/-- Source constant `WHALE_SERVICES` (the three EPIC-tier services). -/
def WHALE_SERVICES : List String :=
  ["New Construction", "Full Renovation", "Home Addition"]

/-- Source constant `QUICK_TURN_SERVICES` (the four SERVICE-tier services). -/
def QUICK_TURN_SERVICES : List String :=
  ["Painting", "Drywall", "Flooring", "Windows/Doors"]

/-- Input record of `assignLeadTags`.  `leadType` is an open string in the
source (`LeadType | string`), absent fields are `none`. -/
structure TagInput where
  serviceType : String
  location : String
  county : Option String
  leadType : Option String
  estimatedValue : Option ℚ
deriving DecidableEq, Repr

/-- Source `assignLeadTags`: sequential pushes onto an initially empty tag
array, with an explicit duplicate guard on the value-based Whale push. -/
def assignLeadTags (input : TagInput) : List LeadTag :=
  let tags : List LeadTag := []
  let tags := if WHALE_SERVICES.contains input.serviceType then tags ++ [.Whale] else tags
  let tags :=
    match input.estimatedValue with
    | some v =>
      if v ≥ 100000 then
        if tags.contains .Whale then tags else tags ++ [.Whale]
      else tags
    | none => tags
  let tags := if QUICK_TURN_SERVICES.contains input.serviceType then tags ++ [.QuickTurn] else tags
  let isLuxuryArea :=
    LUXURY_AREAS.any (fun area => insideStr (lowerStr input.location) (lowerStr area))
  let isLuxuryCounty :=
    match input.county with
    | some c => !(c == "") && LUXURY_COUNTIES.any (fun lc => lowerStr lc == lowerStr c)
    | none => false
  let tags := if isLuxuryArea || isLuxuryCounty then tags ++ [.Luxury] else tags
  let tags :=
    if input.leadType == some "Commercial" || input.leadType == some "HOA Manager" then
      tags ++ [.Commercial]
    else tags
  let tags :=
    if input.leadType == some "Property Manager" || input.leadType == some "Investor" then
      tags ++ [.MultiUnit]
    else tags
  tags

/-- Source `calculateTagBonus`: fixed additive contribution per tag present. -/
def calculateTagBonus (tags : List LeadTag) : ℚ :=
  let bonus : ℚ := 0
  let bonus := if tags.contains .Whale then bonus + 15 else bonus
  let bonus := if tags.contains .Luxury then bonus + 10 else bonus
  let bonus := if tags.contains .MultiUnit then bonus + 8 else bonus
  let bonus := if tags.contains .Commercial then bonus + 5 else bonus
  let bonus := if tags.contains .QuickTurn then bonus + 3 else bonus
  bonus

/-! ## Scoring engine (`src/lib/leads/scoring.ts`) -/

/-- The `ProjectScope` union type. -/
inductive ProjectScope where
  | small
  | medium
  | large
  | enterprise
deriving DecidableEq, Repr

/-- Source constant `SCOPE_SCORES`. -/
def SCOPE_SCORES : ProjectScope → ℚ
  | .small => 20
  | .medium => 50
  | .large => 75
  | .enterprise => 100

/-- Source constant `NOVA_COUNTIES` (the six premium counties). -/
def NOVA_COUNTIES : List String :=
  ["Fairfax", "Arlington", "Alexandria", "Loudoun", "Prince William", "Falls Church"]

/-- Input record of `calculateLeadScore`; optional fields are `Option`,
the boolean flags default to `false` in the source destructuring and `tags`
defaults to the empty array. -/
structure LeadScoreInput where
  serviceTier : ServiceTier
  projectScope : Option ProjectScope
  estimatedValue : Option ℚ
  county : Option String
  hasEmail : Bool
  hasPhone : Bool
  tags : List LeadTag
  confidenceScore : Option ℚ
deriving DecidableEq, Repr

/-- Scope component: the mapped scope score, defaulting to 50 when the scope
is absent. -/
def scopeScoreOf : Option ProjectScope → ℚ
  | some s => SCOPE_SCORES s
  | none => 50

/-- Value component: 50 when the value is absent or not positive, otherwise
clamped linear interpolation between 30 (at the tier's `minValue`) and 100 (at
the tier's `maxValue`). -/
def valueScoreOf (tier : ServiceTier) : Option ℚ → ℚ
  | some v =>
    if v > 0 then
      let mn := (TIER_CONFIG tier).minValue
      let mx := (TIER_CONFIG tier).maxValue
      if v ≥ mx then 100
      else if v ≤ mn then 30
      else 30 + 70 * (v - mn) / (mx - mn)
    else 50
  | none => 50

/-- Location component: 100 for a (truthy) county matching one of the six
NoVA counties case-insensitively, 70 otherwise. -/
def locationScoreOf : Option String → ℚ
  | some c =>
    if !(c == "") then
      if NOVA_COUNTIES.any (fun n => lowerStr n == lowerStr c) then 100 else 70
    else 70
  | none => 70

/-- Engagement component: 50 points per available contact channel. -/
def engagementScoreOf (hasEmail hasPhone : Bool) : ℚ :=
  (if hasEmail then 50 else 0) + (if hasPhone then 50 else 0)

/-- Model of JavaScript `Math.round`: round half toward positive infinity. -/
def jsRound (q : ℚ) : ℤ := ⌊q + 1 / 2⌋

/-- Source `calculateLeadScore`: weighted sum of the five components with the
weights 0.40/0.25/0.20/0.10/0.05, plus the tag bonus when tags are present,
plus up to 5 points of AI-confidence bonus, rounded and clamped to [0, 100]. -/
def calculateLeadScore (input : LeadScoreInput) : ℤ :=
  let tierScore := (TIER_CONFIG input.serviceTier).baseScore
  let scopeScore := scopeScoreOf input.projectScope
  let valueScore := valueScoreOf input.serviceTier input.estimatedValue
  let locationScore := locationScoreOf input.county
  let engagementScore := engagementScoreOf input.hasEmail input.hasPhone
  let weightedScore :=
    tierScore * (0.40 : ℚ) + scopeScore * (0.25 : ℚ) + valueScore * (0.20 : ℚ) +
      locationScore * (0.10 : ℚ) + engagementScore * (0.05 : ℚ)
  let weightedScore :=
    if 0 < input.tags.length then weightedScore + calculateTagBonus input.tags
    else weightedScore
  let weightedScore :=
    match input.confidenceScore with
    | some cs => if cs > 0 then weightedScore + cs / 100 * 5 else weightedScore
    | none => weightedScore
  min 100 (max 0 (jsRound weightedScore))

/-! ## Duplicate detector (`src/lib/leads/duplicate-check.ts`)

The lead store is modelled as the list of rows the queries run against, with
the columns the two functions select (`id, name, email, phone, location`).
`.maybeSingle()` yields a row only when the query matched exactly one row
(on several matches the client reports an error and `data` is `null`, which
the source discards), and `.ilike` is modelled by a faithful `ILIKE` pattern
matcher. -/

/-- Candidate lead data passed to the duplicate check. -/
structure DuplicateCheckInput where
  name : String
  email : Option String
  phone : Option String
  location : String
  address : Option String
deriving DecidableEq, Repr

/-- The `matchType` values of a duplicate-check result. -/
inductive MatchType where
  | email
  | phone
  | address
  | nameLocation
deriving DecidableEq, Repr

/-- Result record of the duplicate check. -/
structure DuplicateCheckResult where
  isDuplicate : Bool
  matchedLeadId : Option String
  matchType : Option MatchType
deriving DecidableEq, Repr

/-- A stored lead row, restricted to the columns the duplicate checks read. -/
structure LeadRow where
  id : String
  name : String
  email : Option String
  phone : Option String
  location : String
deriving DecidableEq, Repr

/-- Source `normalizePhone`: `null` stays `null` (JavaScript falsiness also
sends `""` there), otherwise strip every non-digit character. -/
def normalizePhone : Option String → Option String
  | none => none
  | some s => if s == "" then none else some (digitsOf s)

/-- Source `normalizeEmail`: `null` stays `null`, otherwise lower-case then
trim. -/
def normalizeEmail : Option String → Option String
  | none => none
  | some s => if s == "" then none else some (trimStr (lowerStr s))

/-- Source `normalizeName`: lower-case, trim, collapse internal whitespace. -/
def normalizeName (name : String) : String := collapseWS (trimStr (lowerStr name))

/-- JavaScript truthiness of a nullable string. -/
def jsTruthy : Option String → Bool
  | none => false
  | some s => !(s == "")

/-- Model of `.maybeSingle()`: a row only when the query matched exactly one. -/
def maybeSingle : List LeadRow → Option LeadRow
  | [x] => some x
  | _ => none

/-- An `.ilike` filter against a nullable column: a `NULL` value never matches. -/
def optIlike : Option String → String → Bool
  | none, _ => false
  | some v, pattern => ilikeStr v pattern

/-- Strategy 1 of `findDuplicateLead`: a `maybeSingle` query for rows whose
email column `ILIKE`-matches the normalized candidate email. -/
def emailStrategy (db : List LeadRow) (nEmail : Option String) : Option LeadRow :=
  match nEmail with
  | some e => if e == "" then none else maybeSingle (db.filter (fun r => optIlike r.email e))
  | none => none

/-- Strategy 2 of `findDuplicateLead`: fetch the rows with a non-null phone
column and find the first whose normalized phone equals the candidate's;
requires at least 10 digits in the candidate phone. -/
def phoneStrategy (db : List LeadRow) (nPhone : Option String) : Option LeadRow :=
  match nPhone with
  | some p =>
    if 10 ≤ p.length then
      (db.filter (fun r => !(r.phone == none))).find? (fun r => normalizePhone r.phone == some p)
    else none
  | none => none

/-- Strategy 3 of `findDuplicateLead`: a `maybeSingle` query for rows whose
name and location columns `ILIKE`-contain the normalized candidate name and
location. -/
def nameLocStrategy (db : List LeadRow) (nName nLoc : String) : Option LeadRow :=
  maybeSingle (db.filter
    (fun r => ilikeStr r.name ("%" ++ nName ++ "%") && ilikeStr r.location ("%" ++ nLoc ++ "%")))

/-- Source `findDuplicateLead`: the three matching strategies evaluated in
priority order with early return. -/
def findDuplicateLead (db : List LeadRow) (lead : DuplicateCheckInput) : DuplicateCheckResult :=
  let nEmail := normalizeEmail lead.email
  let nPhone := normalizePhone lead.phone
  let nName := normalizeName lead.name
  let nLoc := trimStr (lowerStr lead.location)
  match emailStrategy db nEmail with
  | some m => { isDuplicate := true, matchedLeadId := some m.id, matchType := some .email }
  | none =>
    match phoneStrategy db nPhone with
    | some m => { isDuplicate := true, matchedLeadId := some m.id, matchType := some .phone }
    | none =>
      match nameLocStrategy db nName nLoc with
      | some m =>
        { isDuplicate := true, matchedLeadId := some m.id, matchType := some .nameLocation }
      | none => { isDuplicate := false, matchedLeadId := none, matchType := none }

/-- Source `checkDuplicateLead`: boolean projection of `findDuplicateLead`. -/
def checkDuplicateLead (db : List LeadRow) (lead : DuplicateCheckInput) : Bool :=
  (findDuplicateLead db lead).isDuplicate

/-- The per-candidate body of the `forEach` loop in `batchCheckDuplicates`:
the first stored row matching any strategy wins, and the match type is then
recomputed with email/phone/name-location precedence. -/
def batchOne (db : List LeadRow) (lead : DuplicateCheckInput) : DuplicateCheckResult :=
  let nEmail := normalizeEmail lead.email
  let nPhone := normalizePhone lead.phone
  let nName := normalizeName lead.name
  let nLoc := trimStr (lowerStr lead.location)
  match db.find? (fun existing =>
      (jsTruthy nEmail && (normalizeEmail existing.email == nEmail)) ||
      (jsTruthy nPhone && (normalizePhone existing.phone == nPhone)) ||
      (insideStr (normalizeName existing.name) nName &&
        insideStr (lowerStr existing.location) nLoc)) with
  | some m =>
    let mt : MatchType :=
      if jsTruthy nEmail && (normalizeEmail m.email == nEmail) then .email
      else if jsTruthy nPhone && (normalizePhone m.phone == nPhone) then .phone
      else .nameLocation
    { isDuplicate := true, matchedLeadId := some m.id, matchType := some mt }
  | none => { isDuplicate := false, matchedLeadId := none, matchType := none }

/-- Source `batchCheckDuplicates`: one snapshot of the store, every candidate
evaluated against it; the result map keyed by candidate index is modelled as
the list of results in candidate order. -/
def batchCheckDuplicates (db : List LeadRow) (leads : List DuplicateCheckInput) :
    List DuplicateCheckResult :=
  leads.map (batchOne db)

/-! ## Shared facts about the reference data and score components -/

/-- Every tier's expected value range is non-degenerate. -/
theorem tier_minValue_lt_maxValue (t : ServiceTier) :
    (TIER_CONFIG t).minValue < (TIER_CONFIG t).maxValue := by
  cases t <;> norm_num [TIER_CONFIG]

/-- Every tier's `minValue` is positive. -/
theorem tier_minValue_pos (t : ServiceTier) : 0 < (TIER_CONFIG t).minValue := by
  cases t <;> norm_num [TIER_CONFIG]

/-- Every tier's base score is at least 20. -/
theorem tier_baseScore_ge (t : ServiceTier) : 20 ≤ (TIER_CONFIG t).baseScore := by
  cases t <;> norm_num [TIER_CONFIG]

/-- The scope component is at least 20. -/
theorem scopeScoreOf_ge (o : Option ProjectScope) : 20 ≤ scopeScoreOf o := by
  rcases o with _ | s
  · norm_num [scopeScoreOf]
  · cases s <;> norm_num [scopeScoreOf, SCOPE_SCORES]

/-- The value component is at least 30. -/
theorem valueScoreOf_ge (t : ServiceTier) (ev : Option ℚ) : 30 ≤ valueScoreOf t ev := by
  have hlt := tier_minValue_lt_maxValue t
  rcases ev with _ | v
  · norm_num [valueScoreOf]
  · unfold valueScoreOf
    dsimp only
    split_ifs with h0 hx hn
    · norm_num
    · norm_num
    · have hpos : 0 < (TIER_CONFIG t).maxValue - (TIER_CONFIG t).minValue := by linarith
      have hnum : 0 ≤ 70 * (v - (TIER_CONFIG t).minValue) := by push_neg at hn; linarith
      have := div_nonneg hnum (le_of_lt hpos)
      linarith
    · norm_num

/-- The value component is at most 100. -/
theorem valueScoreOf_le (t : ServiceTier) (ev : Option ℚ) : valueScoreOf t ev ≤ 100 := by
  have hlt := tier_minValue_lt_maxValue t
  rcases ev with _ | v
  · norm_num [valueScoreOf]
  · unfold valueScoreOf
    dsimp only
    split_ifs with h0 hx hn
    · norm_num
    · norm_num
    · have hpos : 0 < (TIER_CONFIG t).maxValue - (TIER_CONFIG t).minValue := by linarith
      push_neg at hx hn
      have hdiv : 70 * (v - (TIER_CONFIG t).minValue) / ((TIER_CONFIG t).maxValue - (TIER_CONFIG t).minValue) ≤ 70 := by
        rw [div_le_iff₀ hpos]
        nlinarith
      linarith
    · norm_num

/-- The location component is at least 70. -/
theorem locationScoreOf_ge (c : Option String) : 70 ≤ locationScoreOf c := by
  rcases c with _ | s
  · norm_num [locationScoreOf]
  · unfold locationScoreOf
    dsimp only
    split_ifs <;> norm_num

/-- The engagement component is non-negative. -/
theorem engagementScoreOf_nonneg (he hp : Bool) : 0 ≤ engagementScoreOf he hp := by
  cases he <;> cases hp <;> norm_num [engagementScoreOf]

/-- The tag bonus is non-negative. -/
theorem calculateTagBonus_nonneg (tags : List LeadTag) : 0 ≤ calculateTagBonus tags := by
  unfold calculateTagBonus
  split_ifs <;> norm_num

/-- The value component is monotone in the estimated value on positive values. -/
theorem valueScoreOf_mono (t : ServiceTier) {v1 v2 : ℚ} (h0 : 0 < v1) (h12 : v1 ≤ v2) :
    valueScoreOf t (some v1) ≤ valueScoreOf t (some v2) := by
  have hlt := tier_minValue_lt_maxValue t
  have hle100 := valueScoreOf_le t (some v1)
  have hge30 := valueScoreOf_ge t (some v2)
  unfold valueScoreOf
  dsimp only
  rw [if_pos h0, if_pos (lt_of_lt_of_le h0 h12)]
  by_cases hx1 : v1 ≥ (TIER_CONFIG t).maxValue
  · rw [if_pos hx1, if_pos (le_trans hx1 h12)]
  · rw [if_neg hx1]
    by_cases hn1 : v1 ≤ (TIER_CONFIG t).minValue
    · rw [if_pos hn1]
      have h2 := hge30
      unfold valueScoreOf at h2
      dsimp only at h2
      rwa [if_pos (lt_of_lt_of_le h0 h12)] at h2
    · rw [if_neg hn1]
      by_cases hx2 : v2 ≥ (TIER_CONFIG t).maxValue
      · rw [if_pos hx2]
        have h1 := hle100
        unfold valueScoreOf at h1
        dsimp only at h1
        rwa [if_pos h0, if_neg hx1, if_neg hn1] at h1
      · rw [if_neg hx2, if_neg (by push_neg at hn1 ⊢; linarith)]
        have hpos : 0 < (TIER_CONFIG t).maxValue - (TIER_CONFIG t).minValue := by linarith
        have hdiv : (v1 - (TIER_CONFIG t).minValue) / ((TIER_CONFIG t).maxValue - (TIER_CONFIG t).minValue) ≤
            (v2 - (TIER_CONFIG t).minValue) / ((TIER_CONFIG t).maxValue - (TIER_CONFIG t).minValue) := by
          gcongr
        rw [mul_div_assoc, mul_div_assoc]
        nlinarith

/-- The final clamp keeps any rounded weighted score at or above 26 whenever
the un-rounded score is at least 26. -/
theorem clamp_ge_of_ge {w : ℚ} (h : (26 : ℚ) ≤ w) : (26 : ℤ) ≤ min 100 (max 0 (jsRound w)) := by
  have hf : (26 : ℤ) ≤ jsRound w := by
    unfold jsRound
    apply Int.le_floor.mpr
    push_cast
    linarith
  exact le_min (by norm_num) (hf.trans (le_max_right 0 _))

/-! ## Claim theorems -/

/-- C2: for every `ScoreInput` — any tier, each optional field absent or
present with any value, any contact flags — `calculateLeadScore` returns an
integer between 0 and 100 inclusive. -/
theorem c2_score_bounds (input : LeadScoreInput) :
    0 ≤ calculateLeadScore input ∧ calculateLeadScore input ≤ 100 := by
  have h : ∀ r : ℤ, 0 ≤ min 100 (max 0 r) ∧ min 100 (max 0 r) ≤ 100 := fun r =>
    ⟨le_min (by norm_num) (le_max_left 0 r), min_le_left _ _⟩
  unfold calculateLeadScore
  exact h _

/-- C9: for every `ScoreInput`, `calculateLeadScore` returns at least 26 — the
weighted floor 20·0.40 + 20·0.25 + 30·0.20 + 70·0.10 — because the value
component never drops below 30 and the location component never below 70, so
the lower clamp at 0 is never engaged and no lead can score in the 0–25 range. -/
theorem c9_score_lower_bound (input : LeadScoreInput) : 26 ≤ calculateLeadScore input := by
  have htier := tier_baseScore_ge input.serviceTier
  have hscope := scopeScoreOf_ge input.projectScope
  have hval := valueScoreOf_ge input.serviceTier input.estimatedValue
  have hloc := locationScoreOf_ge input.county
  have heng := engagementScoreOf_nonneg input.hasEmail input.hasPhone
  have htag := calculateTagBonus_nonneg input.tags
  unfold calculateLeadScore
  dsimp only
  apply clamp_ge_of_ge
  rcases input.confidenceScore with _ | cs <;> dsimp only <;> split_ifs <;> linarith

/-- C6: with every other field held fixed, for two estimated values inside the
tier's `[minValue, maxValue]` range with `v1 ≤ v2`, the value component at
`v1` is at most the one at `v2`, and consequently the whole lead score at `v1`
is at most the one at `v2`. -/
theorem c6_score_monotone_in_value (input : LeadScoreInput) (v1 v2 : ℚ)
    (h1 : (TIER_CONFIG input.serviceTier).minValue ≤ v1) (h12 : v1 ≤ v2)
    (h2 : v2 ≤ (TIER_CONFIG input.serviceTier).maxValue) :
    valueScoreOf input.serviceTier (some v1) ≤ valueScoreOf input.serviceTier (some v2) ∧
    calculateLeadScore { input with estimatedValue := some v1 } ≤
      calculateLeadScore { input with estimatedValue := some v2 } := by
  have h0 : 0 < v1 := lt_of_lt_of_le (tier_minValue_pos input.serviceTier) h1
  have hmono := valueScoreOf_mono input.serviceTier h0 h12
  refine ⟨hmono, ?_⟩
  have key : ∀ a b : ℚ, a ≤ b → min 100 (max 0 (jsRound a)) ≤ min 100 (max 0 (jsRound b)) := by
    intro a b hab
    refine min_le_min le_rfl (max_le_max le_rfl ?_)
    unfold jsRound
    exact Int.floor_le_floor (by linarith)
  unfold calculateLeadScore
  dsimp only
  apply key
  rcases input.confidenceScore with _ | cs <;> dsimp only <;> split_ifs <;> linarith

/-- Witness for C6: an EPIC-tier input with the estimated value raised from
150000 to 300000. -/
theorem c6_score_monotone_in_value_witness :
    ((TIER_CONFIG ServiceTier.EPIC).minValue ≤ (150000 : ℚ) ∧ (150000 : ℚ) ≤ 300000 ∧
      (300000 : ℚ) ≤ (TIER_CONFIG ServiceTier.EPIC).maxValue) ∧
    (valueScoreOf ServiceTier.EPIC (some 150000) ≤ valueScoreOf ServiceTier.EPIC (some 300000) ∧
      calculateLeadScore ⟨ServiceTier.EPIC, none, some 150000, none, false, false, [], none⟩ ≤
        calculateLeadScore ⟨ServiceTier.EPIC, none, some 300000, none, false, false, [], none⟩) :=
  ⟨⟨by norm_num [TIER_CONFIG], by norm_num, by norm_num [TIER_CONFIG]⟩,
    c6_score_monotone_in_value ⟨ServiceTier.EPIC, none, none, none, false, false, [], none⟩
      150000 300000 (by norm_num [TIER_CONFIG]) (by norm_num) (by norm_num [TIER_CONFIG])⟩

/-- C3 counterexample: ZIP 20814 with no state is *not* treated as
out-of-area — its 2-digit prefix 20 is in `VA_ZIP_PREFIXES` — so the claimed
pair (not serviceable, auto-archived) is false on the code. -/
theorem c3_zip20814_counterexample :
    ¬((validateLeadLocation "20814" none).isVirginia = false ∧
      shouldAutoArchive "20814" none = true) := by decide

/-- C3 (amended): with no state argument, ZIP 20814 validates as a
serviceable Virginia ZIP with no county resolved, and is not auto-archived;
only an explicit foreign state (for instance "MD") makes it out-of-area. -/
theorem c3_zip20814_amended :
    (validateLeadLocation "20814" none).isVirginia = true ∧
    (validateLeadLocation "20814" none).county = none ∧
    shouldAutoArchive "20814" none = false ∧
    shouldAutoArchive "20814" (some "MD") = true := by decide

/-! ## String lemmas for the geofence claims -/

/-- Appending strings concatenates their character data. -/
theorem strData_append (a b : String) : (a ++ b).data = a.data ++ b.data := by
  cases a
  cases b
  rfl

/-- Cleaning a 5-digit ZIP leaves it unchanged. -/
theorem cleanZipOf_self (z : String) (hd : z.data.all Char.isDigit = true)
    (hl : z.data.length = 5) : cleanZipOf z = z := by
  unfold cleanZipOf digitsOf
  rw [List.all_eq_true] at hd
  have hf : z.data.filter Char.isDigit = z.data := List.filter_eq_self.mpr hd
  show String.mk ((z.data.filter Char.isDigit).take 5) = z
  rw [hf, ← hl, List.take_length]

/-- Cleaning a 5-digit ZIP followed by an arbitrary suffix gives the ZIP back. -/
theorem cleanZipOf_append (z s : String) (hd : z.data.all Char.isDigit = true)
    (hl : z.data.length = 5) : cleanZipOf (z ++ s) = cleanZipOf z := by
  unfold cleanZipOf digitsOf
  rw [List.all_eq_true] at hd
  have hf : z.data.filter Char.isDigit = z.data := List.filter_eq_self.mpr hd
  show String.mk (((z ++ s).data.filter Char.isDigit).take 5) =
    String.mk ((z.data.filter Char.isDigit).take 5)
  rw [strData_append, List.filter_append, hf, ← hl, List.take_length,
    List.take_left]

/-- The three geofence entry points depend on the ZIP argument only through
its cleaned form. -/
theorem geofence_congr (a b : String) (h : cleanZipOf a = cleanZipOf b) (st : Option String) :
    validateLeadLocation a st = validateLeadLocation b st ∧
    isVirginiaZipCode a = isVirginiaZipCode b ∧
    getCountyFromZip a = getCountyFromZip b := by
  refine ⟨?_, ?_, ?_⟩
  · unfold validateLeadLocation
    rw [h]
  · unfold isVirginiaZipCode
    rw [h]
  · unfold getCountyFromZip
    rw [h]

/-- C10: the geofence entry points first strip non-digits and keep the first
five digits, so a well-formed 5-digit ZIP and the same ZIP with any appended
suffix (such as a ZIP+4 extension) validate identically. -/
theorem c10_zip_suffix_invariance (z s : String) (st : Option String)
    (hd : z.data.all Char.isDigit = true) (hl : z.data.length = 5) :
    validateLeadLocation (z ++ s) st = validateLeadLocation z st ∧
    isVirginiaZipCode (z ++ s) = isVirginiaZipCode z ∧
    getCountyFromZip (z ++ s) = getCountyFromZip z :=
  geofence_congr (z ++ s) z (cleanZipOf_append z s hd hl) st

/-- Witness for C10: the ZIP+4 form "22030-1234" behaves exactly like "22030". -/
theorem c10_zip_suffix_invariance_witness :
    ("22030".data.all Char.isDigit = true ∧ "22030".data.length = 5) ∧
    (validateLeadLocation ("22030" ++ "-1234") none = validateLeadLocation "22030" none ∧
      isVirginiaZipCode ("22030" ++ "-1234") = isVirginiaZipCode "22030" ∧
      getCountyFromZip ("22030" ++ "-1234") = getCountyFromZip "22030") :=
  ⟨⟨by decide, by decide⟩,
    c10_zip_suffix_invariance "22030" "-1234" none (by decide) (by decide)⟩

/-- C5: every ZIP in the static ZIP→county table validates as serviceable
with exactly the table's county; every well-formed 5-digit ZIP whose 2-digit
prefix is outside the serviceable prefix set validates as not serviceable
with no county. -/
theorem c5_zip_roundtrip :
    (∀ p ∈ ZIP_TO_COUNTY,
      (validateLeadLocation p.1 none).isVirginia = true ∧
      (validateLeadLocation p.1 none).county = some p.2) ∧
    (∀ z : String, z.data.all Char.isDigit = true → z.data.length = 5 →
      VA_ZIP_PREFIXES.contains ⟨z.data.take 2⟩ = false →
      (validateLeadLocation z none).isVirginia = false ∧
      (validateLeadLocation z none).county = none) := by
  constructor
  · decide
  · intro z hd hl hp
    have hcz : cleanZipOf z = z := cleanZipOf_self z hd hl
    have hlen : z.length = 5 := hl
    have hva : isVirginiaZipCode z = false := by
      unfold isVirginiaZipCode
      rw [hcz]
      simp [hlen]
      simpa using hp
    unfold validateLeadLocation
    rw [hcz]
    simp [stateIsForeign, hlen, hva]

/-- Witness for C5: the table entry 22030 ↦ Fairfax, and the out-of-area ZIP
90210. -/
theorem c5_zip_roundtrip_witness :
    (("22030", "Fairfax") ∈ ZIP_TO_COUNTY ∧ "90210".data.all Char.isDigit = true ∧
      "90210".data.length = 5 ∧ VA_ZIP_PREFIXES.contains ⟨"90210".data.take 2⟩ = false) ∧
    ((validateLeadLocation "22030" none).isVirginia = true ∧
      (validateLeadLocation "22030" none).county = some "Fairfax") ∧
    ((validateLeadLocation "90210" none).isVirginia = false ∧
      (validateLeadLocation "90210" none).county = none) :=
  ⟨⟨by decide, by decide, by decide, by decide⟩,
    c5_zip_roundtrip.1 ("22030", "Fairfax") (by decide),
    c5_zip_roundtrip.2 "90210" (by decide) (by decide) (by decide)⟩

/-- C4: for the input with service "New Construction", estimated value
450000, email and phone present and everything else absent, the service maps
to tier EPIC (1), the tagging engine emits Whale, and the score computed for
that tier with those tags is at least 90 (it is exactly 90). -/
theorem c4_new_construction_scenario :
    getServiceTier "New Construction" = ServiceTier.EPIC ∧
    (getServiceTier "New Construction").num = 1 ∧
    LeadTag.Whale ∈ assignLeadTags ⟨"New Construction", "", none, none, some 450000⟩ ∧
    90 ≤ calculateLeadScore ⟨ServiceTier.EPIC, none, some 450000, none, true, true,
      assignLeadTags ⟨"New Construction", "", none, none, some 450000⟩, none⟩ := by
  have htags : assignLeadTags ⟨"New Construction", "", none, none, some (450000 : ℚ)⟩ =
      [LeadTag.Whale] := by decide
  refine ⟨by decide, by decide, by rw [htags]; decide, ?_⟩
  rw [htags]
  have hscore : calculateLeadScore
      ⟨ServiceTier.EPIC, none, some 450000, none, true, true, [LeadTag.Whale], none⟩ = 90 := by
    unfold calculateLeadScore scopeScoreOf valueScoreOf locationScoreOf engagementScoreOf
    norm_num +decide [TIER_CONFIG, calculateTagBonus, jsRound, List.contains]
  rw [hscore]

/-- C7: the fuzzy service classifier resolves "kitchen remodeling" to the
canonical "Kitchen Remodel" (via the substring rule, since no exact match
fires), whose tier is MODERNIZE (2). -/
theorem c7_fuzzy_kitchen_remodeling :
    findClosestService "kitchen remodeling" = some "Kitchen Remodel" ∧
    getServiceTier "Kitchen Remodel" = ServiceTier.MODERNIZE ∧
    (getServiceTier "Kitchen Remodel").num = 2 := by decide

/-- C8: for every tagging input, the returned tag list holds each of the five
tags at most once — in particular Whale is not double-added when both Whale
conditions fire — so it is duplicate-free and carries between 0 and 5 tags. -/
theorem c8_tags_nodup_le_five (input : TagInput) :
    (assignLeadTags input).Nodup ∧ (assignLeadTags input).length ≤ 5 := by
  unfold assignLeadTags
  dsimp only
  rcases hev : input.estimatedValue with _ | v <;> dsimp only <;> split_ifs <;>
    first
    | decide
    | simp_all

/-! ## C1: batch versus single duplicate check -/

/-- First stored lead of the C1 counterexample: matches the candidate by
name and location only. -/
def c1RowNameLoc : LeadRow := ⟨"L1", "john smith", some "a@x.com", none, "fairfax"⟩

/-- Second stored lead of the C1 counterexample: matches the candidate by
email. -/
def c1RowEmail : LeadRow := ⟨"L2", "zoe quinn", some "j@x.com", none, "richmond"⟩

/-- The C1 counterexample candidate. -/
def c1Cand : DuplicateCheckInput := ⟨"John Smith", some "J@X.com", none, "Fairfax", none⟩

/-- The C1 counterexample snapshot of existing leads. -/
def c1Existing : List LeadRow := [c1RowNameLoc, c1RowEmail]

/-- C1 counterexample: against the same snapshot, the single check applies the
strategies in priority order and reports the email match on lead L2, while the
batch check takes the first snapshot row matching any strategy and reports a
name-location match on lead L1 — the results differ at index 0, refuting the
claimed batch/single equivalence. -/
theorem c1_batch_single_counterexample :
    findDuplicateLead c1Existing c1Cand =
      ⟨true, some "L2", some MatchType.email⟩ ∧
    batchCheckDuplicates c1Existing [c1Cand] =
      [⟨true, some "L1", some MatchType.nameLocation⟩] ∧
    (batchCheckDuplicates c1Existing [c1Cand]).get? 0 ≠
      some (findDuplicateLead c1Existing c1Cand) := by decide

/-- The per-candidate batch body returns "no duplicate" on an empty snapshot. -/
theorem batchOne_nil (c : DuplicateCheckInput) :
    batchOne [] c = ⟨false, none, none⟩ := rfl

/-- The single check returns "no duplicate" on an empty snapshot. -/
theorem findDuplicateLead_nil (c : DuplicateCheckInput) :
    findDuplicateLead [] c = ⟨false, none, none⟩ := by
  unfold findDuplicateLead
  have he : emailStrategy [] (normalizeEmail c.email) = none := by
    unfold emailStrategy
    split
    · split <;> rfl
    · rfl
  have hp : phoneStrategy [] (normalizePhone c.phone) = none := by
    unfold phoneStrategy
    split
    · split <;> rfl
    · rfl
  dsimp only
  rw [he, hp]
  rfl

/-- C1 (amended): each entry of the batch result is a function of that
candidate and the snapshot alone — no candidate is matched against another
candidate of the same batch — and on an empty snapshot the batch result agrees
with the single check; but in general the batch result at an index need not
equal the single check's result, because the batch takes the first snapshot
row matching any strategy and skips the 10-digit phone minimum. -/
theorem c1_batch_candidate_local (db : List LeadRow)
    (cs cs' : List DuplicateCheckInput) (i : Nat) (h : cs.get? i = cs'.get? i) :
    (batchCheckDuplicates db cs).get? i = (batchCheckDuplicates db cs').get? i ∧
    (batchCheckDuplicates [] cs).get? i =
      (cs.get? i).map (fun c => findDuplicateLead [] c) := by
  constructor
  · unfold batchCheckDuplicates
    rw [List.get?_map, List.get?_map, h]
  · unfold batchCheckDuplicates
    rw [List.get?_map]
    rcases cs.get? i with _ | c
    · rfl
    · simp only [Option.map_some']
      rw [batchOne_nil, findDuplicateLead_nil]

/-- Witness for C1 (amended): a concrete candidate, in batches of different
sizes, against the empty snapshot. -/
theorem c1_batch_candidate_local_witness :
    ([c1Cand].get? 0 = [c1Cand, c1Cand].get? 0) ∧
    ((batchCheckDuplicates [] [c1Cand]).get? 0 =
        (batchCheckDuplicates [] [c1Cand, c1Cand]).get? 0 ∧
      (batchCheckDuplicates [] [c1Cand]).get? 0 =
        ([c1Cand].get? 0).map (fun c => findDuplicateLead [] c)) :=
  ⟨by decide, c1_batch_candidate_local [] [c1Cand] [c1Cand, c1Cand] 0 (by decide)⟩
